import Mathlib

/-!
Shallow embedding of the sbutil UWF firmware-loader core
(`uwf_processor.py`, `ig60_bl654_uwf_processor.py`, `btpa_firmware_loader.py`).

Bytes are modelled as `Nat` values (0..255 by construction where relevant).
The serial transport is modelled by a response oracle `resp : Nat → List Nat`
giving the byte string read back on the k-th `write_to_comm` exchange, and a
log accumulating the byte string sent on each exchange.  A Python exception
(KeyError, struct.error, AttributeError, ...) is modelled as `Except.error`;
the normal return value `error` of a handler (`None` or a message) is the
`Option String` component of `Except.ok`.
-/

/-- The little-endian 4-byte encoding produced by struct.pack of a u32 value. -/
def le32 (n : Nat) : List Nat :=
  [n % 256, n / 256 % 256, n / 65536 % 256, n / 16777216 % 256]

/-- The struct.unpack decoding of four little-endian bytes into a u32. -/
def dec32 (b0 b1 b2 b3 : Nat) : Nat :=
  b0 + 256 * b1 + 65536 * b2 + 16777216 * b3

/-- Decode a little-endian u32 at position `i` of a byte list (caller has
checked the length, as the Python `struct.unpack` slice does). -/
def dec32at (l : List Nat) (i : Nat) : Nat :=
  dec32 (l.getD i 0) (l.getD (i + 1) 0) (l.getD (i + 2) 0) (l.getD (i + 3) 0)

/-- The byte-wise arithmetic checksum loop of `process_command_write_blocks`
(`checksum += data[i]` over the chunk). -/
def byteSum (l : List Nat) : Nat :=
  l.foldl (fun a b => a + b) 0

/-- Python dict lookup `m[k]` over an association list (later entries shadow
earlier ones, so insertion is modelled by cons). -/
def alookup (m : List (Nat × Nat)) (k : Nat) : Option Nat :=
  (m.find? (fun p => p.1 == k)).map (fun p => p.2)

/-- Dict lookup with an `Option` key: `m[None]` raises KeyError (no entry). -/
def alookupOpt (m : List (Nat × Nat)) (k : Option Nat) : Option Nat :=
  match k with
  | none => none
  | some k => alookup m k

/-- The sum computed by the private VerifySectorMap helper: the total of
`sectors[i] * sector_size[i]` over the stored sector map. -/
def verifySectorMapSum (sectors sizes : List Nat) : Nat :=
  (List.zipWith (fun a b => a * b) sectors sizes).foldl (fun a b => a + b) 0

/-- Session state of `UwfProcessor.__init__`.  The `attr_*` fields model the
Python instance attributes `self.handle`, `self.num_banks`, `self.bank_size`,
`self.bank_algo` read by the IG60 subclass: `none` means the attribute does
not exist (reading it raises AttributeError). -/
structure UwfState where
  synchronized : Bool
  registered : Bool
  erased : Bool
  write_complete : Bool
  sectors : List Nat
  sector_size : List Nat
  selected_handle : Option Nat
  selected_bank : Option Nat
  write_block_size : Nat
  verify_write_limit : Nat
  mem_base_address : List (Nat × Nat)
  mem_num_banks : List (Nat × Nat)
  mem_bank_size : List (Nat × Nat)
  mem_bank_algo : List (Nat × Nat)
  attr_handle : Option Nat
  attr_num_banks : Option Nat
  attr_bank_size : Option Nat
  attr_bank_algo : Option Nat
deriving DecidableEq, Repr

/-- The state built by `UwfProcessor.__init__` (DATA_BLOCK_SIZE = 252,
verify_write_limit = 8). -/
def initState : UwfState where
  synchronized := false
  registered := false
  erased := false
  write_complete := false
  sectors := []
  sector_size := []
  selected_handle := none
  selected_bank := none
  write_block_size := 252
  verify_write_limit := 8
  mem_base_address := []
  mem_num_banks := []
  mem_bank_size := []
  mem_bank_algo := []
  attr_handle := none
  attr_num_banks := none
  attr_bank_size := none
  attr_bank_algo := none

/-- Result of one `SectorMapIter.__next__` call: either a yielded erase
offset together with the resumption cursor, or StopIteration.  The cursor is
`(groups, rem, base, offset)` where `groups` is the suffix of
`zip(tSectors, tSectorSz)` from the current tuple index on, `rem` the number
of sectors of the head group not yet passed (`sector_numof - sector_num`),
`base` the running `sectorThisBase` and `offset` the running `nOffset`. -/
inductive IterRes where
  | yielded (v : Nat) (groups : List (Nat × Nat)) (rem base offset : Nat)
  | stop
deriving DecidableEq, Repr

/-- Result of the inner `for num in range(...)` loop of
`SectorMapIter.__next__` over one sector group. -/
inductive InnerOut where
  | yielded (v rem base offset : Nat)
  | stop
  | nextGroup (base : Nat)
deriving DecidableEq, Repr

/-- Inner loop of `SectorMapIter.__next__`: walk `rem` remaining sectors of
size `size`.  If `nOffset < sectorNextBase`, yield `sectorThisBase` and set
`nOffset := sectorNextBase` (the cursor keeps the same `num`); otherwise
advance `sectorThisBase` and stop if it reached `nOffsetEnd`. -/
def iterInner (size offsetEnd : Nat) : Nat → Nat → Nat → InnerOut
  | 0, base, _ => .nextGroup base
  | rem + 1, base, offset =>
    let nextBase := base + size
    if offset < nextBase then
      .yielded base (rem + 1) base nextBase
    else if offsetEnd ≤ nextBase then
      .stop
    else
      iterInner size offsetEnd rem nextBase offset

/-- The outer loop of `SectorMapIter.__next__` over the remaining sector groups
(after each exhausted group `sector_num` is reset to 0, i.e. the next group
starts with `rem` equal to its full run count). -/
def iterNext (offsetEnd : Nat) : List (Nat × Nat) → Nat → Nat → Nat → IterRes
  | [], _, _, _ => .stop
  | (numof, size) :: rest, rem, base, offset =>
    match iterInner size offsetEnd rem base offset with
    | .yielded v rem' base' offset' => .yielded v ((numof, size) :: rest) rem' base' offset'
    | .stop => .stop
    | .nextGroup base' =>
      match rest with
      | [] => .stop
      | (numof', size') :: rest' => iterNext offsetEnd ((numof', size') :: rest') numof' base' offset

/-- Drive `iterNext` to exhaustion, collecting the yielded erase-start
offsets; the Bool records that the iterator stopped by itself (StopIteration)
rather than the fuel running out. -/
def iterSeq (offsetEnd : Nat) : Nat → List (Nat × Nat) → Nat → Nat → Nat → List Nat × Bool
  | 0, _, _, _, _ => ([], false)
  | fuel + 1, groups, rem, base, offset =>
    match iterNext offsetEnd groups rem base offset with
    | .stop => ([], true)
    | .yielded v groups' rem' base' offset' =>
      let r := iterSeq offsetEnd fuel groups' rem' base' offset'
      (v :: r.1, r.2)

/-- The initial cursor of `iter(SectorMapIter(sectors, sizes, start, end))`:
all groups pending, `rem` the run count of the head group. -/
def iterStart (groups : List (Nat × Nat)) : Nat :=
  match groups with
  | [] => 0
  | (numof, _) :: _ => numof

/-- Python mutable loop state of the `while remaining_data_size > 0` loop in
`UwfProcessor.process_command_write_blocks`, plus the remaining file bytes,
the transport exchange counter `k` and the log of sent byte strings. -/
structure WbLoop where
  file : List Nat
  offset : Nat
  remaining : Nat
  last_write : Bool
  verify_start_addr : List Nat
  verify_count : Nat
  verify_checksum : Nat
  verify_data_block_size : Nat
  k : Nat
  log : List (List Nat)
deriving DecidableEq, Repr

/-- Exit of the write loop: `normal` is the `while ... else` branch (no
break), `broke` a `break` with the error message of the handler, `exn` a raised
struct.error, `fuelOut` models non-termination of the source loop. -/
inductive WbRes where
  | normal (s : WbLoop)
  | broke (msg : String) (s : WbLoop)
  | exn (msg : String) (s : WbLoop)
  | fuelOut (s : WbLoop)
deriving DecidableEq, Repr

/-- Byte values of the ASCII wire opcodes: w is 119, d is 100, v is 118,
e is 101; the acknowledge response a is the single byte 97. -/
def ackByte : List Nat := [97]

/-- The bytes_to_write value of the current iteration: the full block size,
or the shorter final remainder. -/
def wbBytes (blockSize : Nat) (s : WbLoop) : Nat :=
  if s.remaining < blockSize then s.remaining else blockSize

/-- The `last_write` flag after the update of the current iteration (it is set,
never cleared, when the remainder is shorter than a block). -/
def wbLastw (blockSize : Nat) (s : WbLoop) : Bool :=
  if s.remaining < blockSize then true else s.last_write

/-- The chunk read by `file.read(bytes_to_write)` (a short read happens when
the stream is exhausted, exactly as in the source). -/
def wbData (blockSize : Nat) (s : WbLoop) : List Nat :=
  s.file.take (wbBytes blockSize s)

/-- The write command: `w` + 4-byte absolute start address + 1-byte length. -/
def wbCmd1 (blockSize baseaddr : Nat) (s : WbLoop) : List Nat :=
  119 :: (le32 (s.offset + baseaddr) ++ [wbBytes blockSize s])

/-- The data command: `d` + chunk + LSB of the byte-wise chunk sum. -/
def wbCmd2 (blockSize : Nat) (s : WbLoop) : List Nat :=
  100 :: (wbData blockSize s ++ [byteSum (wbData blockSize s) % 256])

/-- The verify command: `v` + range-start address + accumulated length +
accumulated checksum (the full 32-bit checksum). -/
def wbCmd3 (s : WbLoop) : List Nat :=
  118 :: (s.verify_start_addr ++ le32 s.verify_data_block_size ++ le32 s.verify_checksum)

/-- The chunked write loop of `UwfProcessor.process_command_write_blocks`
(lines 385-458): per chunk send `w` + addr + length, on ack send `d` + data
+ checksum LSB, on ack either verify (`v` + range start + accumulated length
+ accumulated checksum, after which the accumulator is reset and the range
start advanced) when `last_write or verify_count >= verify_write_limit`, or
accumulate the chunk into the verify accumulator. -/
def writeLoop (blockSize verifyLimit baseaddr : Nat) (resp : Nat → List Nat)
    (fuel : Nat) (s : WbLoop) : WbRes :=
  if s.remaining = 0 then .normal s
  else
    match fuel with
    | 0 => .fuelOut s
    | fuel + 1 =>
        if 4294967296 ≤ s.offset + baseaddr then .exn "struct.error" s
        else if 256 ≤ wbBytes blockSize s then .exn "struct.error" s
        else if resp s.k = ackByte then
          if resp (s.k + 1) = ackByte then
            if wbLastw blockSize s || decide (verifyLimit ≤ s.verify_count) then
              if 4294967296 ≤ s.verify_data_block_size then .exn "struct.error" s
              else if 4294967296 ≤ s.verify_checksum then .exn "struct.error" s
              else if resp (s.k + 2) = ackByte then
                if 4294967296 ≤ s.offset + (wbData blockSize s).length + baseaddr then
                  .exn "struct.error" s
                else
                  writeLoop blockSize verifyLimit baseaddr resp fuel
                    { file := s.file.drop (wbBytes blockSize s)
                      offset := s.offset + (wbData blockSize s).length
                      remaining := s.remaining - (wbData blockSize s).length
                      last_write := wbLastw blockSize s
                      verify_start_addr := le32 (s.offset + (wbData blockSize s).length + baseaddr)
                      verify_count := 1
                      verify_checksum := 0
                      verify_data_block_size := 0
                      k := s.k + 3
                      log := s.log ++ [wbCmd1 blockSize baseaddr s] ++ [wbCmd2 blockSize s]
                        ++ [wbCmd3 s] }
              else
                .broke "Non-ack to verify command"
                  { s with
                    file := s.file.drop (wbBytes blockSize s)
                    offset := s.offset + (wbData blockSize s).length
                    remaining := s.remaining - (wbData blockSize s).length
                    last_write := wbLastw blockSize s
                    k := s.k + 3
                    log := s.log ++ [wbCmd1 blockSize baseaddr s] ++ [wbCmd2 blockSize s]
                      ++ [wbCmd3 s] }
            else
              writeLoop blockSize verifyLimit baseaddr resp fuel
                { file := s.file.drop (wbBytes blockSize s)
                  offset := s.offset + (wbData blockSize s).length
                  remaining := s.remaining - (wbData blockSize s).length
                  last_write := wbLastw blockSize s
                  verify_start_addr := s.verify_start_addr
                  verify_count := s.verify_count + 1
                  verify_checksum := s.verify_checksum + byteSum (wbData blockSize s)
                  verify_data_block_size := s.verify_data_block_size + (wbData blockSize s).length
                  k := s.k + 2
                  log := s.log ++ [wbCmd1 blockSize baseaddr s] ++ [wbCmd2 blockSize s] }
          else
            .broke "Non-ack to data write"
              { s with
                file := s.file.drop (wbBytes blockSize s)
                last_write := wbLastw blockSize s
                k := s.k + 2
                log := s.log ++ [wbCmd1 blockSize baseaddr s] ++ [wbCmd2 blockSize s] }
        else
          .broke "Non-ack to write command"
            { s with
              last_write := wbLastw blockSize s
              k := s.k + 1
              log := s.log ++ [wbCmd1 blockSize baseaddr s] }

/-- The formatted ERROR_WRITE_BLOCKS message. -/
def errorWriteBlocks (msg : String) : String :=
  "process_command_write_blocks: " ++ msg ++ "\n"

/-- The formatted ERROR_ERASE_BLOCKS message. -/
def errorEraseBlocks (msg : String) : String :=
  "process_command_erase_blocks: " ++ msg ++ "\n"

/-- The formatted ERROR_REGISTER_DEVICE message. -/
def errorRegisterDevice (msg : String) : String :=
  "process_command_register_device: " ++ msg ++ "\n"

/-- Embedding of `UwfProcessor.process_command_write_blocks` (lines 359-464).  `file` is
the byte stream positioned at the record payload; the result carries the
the returned `error` of the handler, the session state after the call and the log of
byte strings sent to the transport.  `fuel` bounds the loop iterations. -/
def process_command_write_blocks (st : UwfState) (file : List Nat) (data_length : Nat)
    (resp : Nat → List Nat) (fuel : Nat) :
    Except String (Option String × UwfState × List (List Nat)) :=
  if st.erased then
    match alookupOpt st.mem_base_address st.selected_handle with
    | none => .error "KeyError"
    | some baseaddr =>
      if (file.take 8).length < 8 then .error "struct.error"
      else
        match alookupOpt st.mem_bank_size st.selected_handle with
        | none => .error "KeyError"
        | some bank_size =>
          if data_length - 8 ≤ bank_size then
            if 4294967296 ≤ dec32at (file.take 8) 0 + baseaddr then .error "struct.error"
            else
              match writeLoop st.write_block_size st.verify_write_limit baseaddr resp fuel
                { file := file.drop 8
                  offset := dec32at (file.take 8) 0
                  remaining := data_length - 8
                  last_write := false
                  verify_start_addr := le32 (dec32at (file.take 8) 0 + baseaddr)
                  verify_count := 1
                  verify_checksum := 0
                  verify_data_block_size := 0
                  k := 0
                  log := [] } with
              | .normal s => .ok (none, { st with write_complete := true }, s.log)
              | .broke msg s => .ok (some (errorWriteBlocks msg), st, s.log)
              | .exn msg _ => .error msg
              | .fuelOut _ => .error "nonterminating"
          else .ok (some (errorWriteBlocks "Data to write > bank size"), st, [])
  else .ok (some (errorWriteBlocks "Erase command not yet processed"), st, [])

/-- The precondition guard of `UwfProcessor.process_command_erase_blocks`
(lines 324-327): `synchronized and registered and len(sectors)>0 and
sectors[0]>0 and len(sector_size)>0 and sector_size[0]>0`. -/
def erasePrecond (st : UwfState) : Bool :=
  st.synchronized && st.registered &&
  (match st.sectors with
   | [] => false
   | s0 :: _ => decide (0 < s0)) &&
  (match st.sector_size with
   | [] => false
   | z0 :: _ => decide (0 < z0))

/-- Exit of the erase loop: `ok1` is the `for ... else` branch (all sectors
acked, `erased` set), `nonAck` the break with an error, `exn` a raised
struct.error, `fuelOut` models non-termination. -/
inductive ErRes where
  | ok1 (k : Nat) (log : List (List Nat))
  | nonAck (k : Nat) (log : List (List Nat))
  | exn (msg : String)
  | fuelOut
deriving DecidableEq, Repr

/-- The `for ofs in map_iter` loop of `process_command_erase_blocks`
(lines 339-349): per yielded offset send `e` + 4-byte absolute address and
require an ack. -/
def eraseLoop (baseaddr offsetEnd : Nat) (resp : Nat → List Nat) :
    Nat → List (Nat × Nat) → Nat → Nat → Nat → Nat → List (List Nat) → ErRes
  | 0, _, _, _, _, _, _ => .fuelOut
  | fuel + 1, groups, rem, base, offset, k, log =>
    match iterNext offsetEnd groups rem base offset with
    | .stop => .ok1 k log
    | .yielded ofs groups' rem' base' offset' =>
      if 4294967296 ≤ ofs + baseaddr then .exn "struct.error"
      else
        let cmd := 101 :: le32 (ofs + baseaddr)
        let log' := log ++ [cmd]
        if resp k = ackByte then
          eraseLoop baseaddr offsetEnd resp fuel groups' rem' base' offset' (k + 1) log'
        else .nonAck (k + 1) log'

/-- Embedding of `UwfProcessor.process_command_erase_blocks` (lines 316-357). -/
def process_command_erase_blocks (st : UwfState) (file : List Nat) (data_length : Nat)
    (resp : Nat → List Nat) (fuel : Nat) :
    Except String (Option String × UwfState × List (List Nat)) :=
  if erasePrecond st then
    let erase_data := file.take data_length
    match alookupOpt st.mem_base_address st.selected_handle with
    | none => .error "KeyError"
    | some baseaddr =>
      if erase_data.length < 8 then .error "struct.error"
      else
        let offset := dec32at erase_data 0
        let size := dec32at erase_data 4
        match alookupOpt st.mem_bank_size st.selected_handle with
        | none => .error "KeyError"
        | some bank_size =>
          if offset + size ≤ bank_size then
            if st.sectors.length > 0 ∧ st.sectors.length = st.sector_size.length then
              let groups := st.sectors.zip st.sector_size
              match eraseLoop baseaddr (offset + size) resp fuel groups
                  (iterStart groups) 0 offset 0 [] with
              | .ok1 _ log => .ok (none, { st with erased := true }, log)
              | .nonAck _ log =>
                .ok (some (errorEraseBlocks "Non-ack to erase command"), st, log)
              | .exn msg => .error msg
              | .fuelOut => .error "nonterminating"
            else .error "Sector map invalid"
          else .ok (some (errorEraseBlocks "Erase block size plus offset > bank size"), st, [])
  else
    .ok (some (errorEraseBlocks
      "Target platform, register device, or sector map commands not yet processed"), st, [])

/-- Embedding of `UwfProcessor.process_command_register_device` (lines
245-269): decode
`handle:u8, base_address:u32, num_banks:u8, bank_size:u32, bank_algo:u8`
from the 11-byte payload, store them in the mem dicts keyed by handle,
set `registered` and return `None`.  Note that the decoded values are bound
to local variables only: no `handle`/`num_banks`/`bank_size`/`bank_algo`
instance attribute is created. -/
def process_command_register_device (st : UwfState) (file : List Nat) (data_length : Nat) :
    Except String (Option String × UwfState) :=
  let data := file.take data_length
  if data.length < 11 then .error "struct.error"
  else
    let handle := data.getD 0 0
    let base_address := dec32at data 1
    let num_banks := data.getD 5 0
    let bank_size := dec32at data 6
    let bank_algo := data.getD 10 0
    .ok (none,
      { st with
        mem_base_address := (handle, base_address) :: st.mem_base_address
        mem_num_banks := (handle, num_banks) :: st.mem_num_banks
        mem_bank_size := (handle, bank_size) :: st.mem_bank_size
        mem_bank_algo := (handle, bank_algo) :: st.mem_bank_algo
        registered := true })

/-- Embedding of `UwfProcessor.process_command_select_device` (lines
271-280). -/
def process_command_select_device (st : UwfState) (file : List Nat) (data_length : Nat) :
    Except String (Option String × UwfState) :=
  let data := file.take data_length
  if data.length < 2 then .error "struct.error"
  else
    .ok (none,
      { st with
        selected_handle := some (data.getD 0 0)
        selected_bank := some (data.getD 1 0) })

/-- Parse `n` `(sectors:u32-LE, sector_size:u32-LE)` pairs from the payload;
`none` models the struct.error raised on a short slice. -/
def parsePairs : List Nat → Nat → Option (List Nat × List Nat)
  | _, 0 => some ([], [])
  | b0 :: b1 :: b2 :: b3 :: c0 :: c1 :: c2 :: c3 :: rest, n + 1 =>
    match parsePairs rest n with
    | some (ss, zs) => some (dec32 b0 b1 b2 b3 :: ss, dec32 c0 c1 c2 c3 :: zs)
    | none => none
  | _, _ + 1 => none

/-- Embedding of `UwfProcessor.process_command_sector_map` (lines 291-314):
parse the
pairs, replace `sectors`/`sector_size`, and only if `selected_handle` is not
`None` verify the sum against the size of the selected bank (raising on a
mismatch).  No check happens when no selection exists yet. -/
def process_command_sector_map (st : UwfState) (file : List Nat) (data_length : Nat) :
    Except String (Option String × UwfState) :=
  let data := file.take data_length
  let arrsize := data_length / 8
  if arrsize * 8 ≠ data_length then .error "SectorMap length error in uwf file"
  else
    match parsePairs data arrsize with
    | none => .error "struct.error"
    | some (secs, sizes) =>
      let st1 := { st with sectors := secs, sector_size := sizes }
      match st.selected_handle with
      | none => .ok (none, st1)
      | some h =>
        match alookup st1.mem_bank_size h with
        | none => .error "KeyError"
        | some bs =>
          if verifySectorMapSum secs sizes = bs then .ok (none, st1)
          else .error "SectorMap not consistent with bank size"

/-- Expected registration values of `Ig60Bl654UwfProcessor.__init__`. -/
def expected_handle : Nat := 0

/-- Expected bank count of `Ig60Bl654UwfProcessor.__init__`. -/
def expected_num_banks : Nat := 1

/-- Expected bank algorithm of `Ig60Bl654UwfProcessor.__init__`. -/
def expected_bank_algo : Nat := 1

/-- Embedding of `Ig60Bl654UwfProcessor.process_command_register_device`
(lines 41-53):
call the base handler, then compare `self.handle`, `self.num_banks`,
`self.bank_size`, `self.bank_algo` against the expected profile, left to
right with short-circuiting; reading an attribute that was never assigned
raises AttributeError. -/
def ig60_process_command_register_device (st : UwfState) (file : List Nat)
    (data_length : Nat) : Except String (Option String × UwfState) :=
  match process_command_register_device st file data_length with
  | .error m => .error m
  | .ok (_, st1) =>
    let mismatch : Except String (Option String × UwfState) :=
      .ok (some (errorRegisterDevice "Unexpected registration data"),
        { st1 with registered := false })
    match st1.attr_handle with
    | none => .error "AttributeError: Ig60Bl654UwfProcessor object has no attribute handle"
    | some h =>
      if h = expected_handle then
        match st1.attr_num_banks with
        | none =>
          .error "AttributeError: Ig60Bl654UwfProcessor object has no attribute num_banks"
        | some nb =>
          if nb = expected_num_banks then
            match st1.attr_bank_size with
            | none =>
              .error "AttributeError: Ig60Bl654UwfProcessor object has no attribute bank_size"
            | some bsz =>
              if 0 < bsz then
                match st1.attr_bank_algo with
                | none =>
                  .error
                    "AttributeError: Ig60Bl654UwfProcessor object has no attribute bank_algo"
                | some ba =>
                  if ba = expected_bank_algo then
                    .ok (none, { st1 with registered := true })
                  else mismatch
              else mismatch
          else mismatch
      else mismatch

/-- Outcome of one dispatched handler call in the driver loop of
`btpa_firmware_loader.py`: a returned `error` value (None or a message),
a raised `serial.SerialException`, or any other raised exception. -/
inductive HRes where
  | ret (e : Option String)
  | raiseSerial (msg : String)
  | raiseExn (msg : String)

/-- Why the driver loop returned: clean EOF, a handler-reported error
(`error != None`), a `serial.SerialException`, any other exception
(struct.error, NameError, UnicodeDecodeError, handler raises), or fuel
exhaustion (models an unbounded run). -/
inductive StopReason where
  | eof
  | handlerError
  | serialExn
  | exn
  | fuelOut
deriving DecidableEq, Repr

/-- Result of the driver loop: the process exit code, how many times
`processor.process_reboot()` was invoked, and why the loop stopped. -/
structure DriverOut where
  exit_code : Nat
  reboots : Nat
  reason : StopReason
deriving DecidableEq, Repr

/-- The seven known `(cmd, data_length)` dispatch guards of
`btpa_firmware_loader.py` lines 66-79 (`T`=84, `G`=71, `S`=83, `M`=77,
`E`=69, `W`=87, `U`=85). -/
def isKnownCmd (cmd dlen : Nat) : Bool :=
  (cmd == 84 && dlen == 4) || (cmd == 71 && dlen == 11) || (cmd == 83 && dlen == 2) ||
  (cmd == 77 && dlen == 8) || (cmd == 69 && dlen == 8) || (cmd == 87 && decide (8 ≤ dlen)) ||
  (cmd == 85 && dlen == 1)

/-- The errno value EPERM. -/
def EPERM : Nat := 1

/-- The errno value ENETUNREACH. -/
def ENETUNREACH : Nat := 101

/-- The record-dispatch loop of `btpa_firmware_loader.py` (lines 59-93),
abstracted over the outcomes of the dispatched handler calls
(`outcomes i` is the result of the i-th call; on a non-error return the
handler has consumed exactly its `data_length` payload bytes).  `errVar`
models the Python local `error`: `none` means the name was never assigned,
so that evaluating `if error != None` raises NameError; exceptions are
caught by the module-level `except` clauses, which set the exit code but do
not call `process_reboot`. -/
def driverLoop (outcomes : Nat → HRes) : Nat → List Nat → Option (Option String) → Nat →
    DriverOut
  | 0, _, _, _ => ⟨EPERM, 0, .fuelOut⟩
  | fuel + 1, file, errVar, i =>
    if file.isEmpty then ⟨0, 1, .eof⟩
    else if file.length < 6 then ⟨EPERM, 0, .exn⟩
    else if 128 ≤ file.getD 0 0 then ⟨EPERM, 0, .exn⟩
    else if isKnownCmd (file.getD 0 0) (dec32at file 2) then
      match outcomes i with
      | .raiseSerial _ => ⟨ENETUNREACH, 0, .serialExn⟩
      | .raiseExn _ => ⟨EPERM, 0, .exn⟩
      | .ret e =>
        match e with
        | some _ => ⟨EPERM, 1, .handlerError⟩
        | none =>
          driverLoop outcomes fuel ((file.drop 6).drop (dec32at file 2)) (some none) (i + 1)
    else
      match errVar with
      | none => ⟨EPERM, 0, .exn⟩
      | some none => driverLoop outcomes fuel ((file.drop 6).drop (dec32at file 2)) errVar i
      | some (some _) => ⟨EPERM, 1, .handlerError⟩

deriving instance DecidableEq for Except

/-- A transport stub that acknowledges every command. -/
def allAck : Nat → List Nat := fun _ => [97]

/-- A session state ready for WriteBlocks: erased, with handle 0 selected,
registered at base address 0 with bank size 600000. -/
def wbState : UwfState :=
  { initState with
    erased := true
    selected_handle := some 0
    mem_base_address := [(0, 0)]
    mem_bank_size := [(0, 600000)] }

/-- A session state after sync and a RegisterDevice of handle 0 with bank
size 1000, before any SelectDevice. -/
def c4State : UwfState :=
  { initState with
    synchronized := true
    registered := true
    mem_base_address := [(0, 0)]
    mem_num_banks := [(0, 1)]
    mem_bank_size := [(0, 1000)]
    mem_bank_algo := [(0, 1)] }

/-- The state after processing a SectorMap record of one group (3 sectors of
size 4, sum 12) while no selection exists. -/
def c4St1 : UwfState := { c4State with sectors := [3], sector_size := [4] }

/-- The state after then processing a SelectDevice record for handle 0,
bank 0. -/
def c4St2 : UwfState := { c4St1 with selected_handle := some 0, selected_bank := some 0 }

/-- The c4State with handle 0 already selected, so that the SectorMap
handler performs the consistency check. -/
def c4SelState : UwfState := { c4State with selected_handle := some 0 }

/-- Shape of a data command on the wire: opcode d, the chunk bytes, then the
low byte of the byte-wise arithmetic sum of the chunk. -/
def dataCmdShape (e : List Nat) : Prop :=
  ∃ c, e = 100 :: (c ++ [byteSum c % 256])

/-- The log a write-loop exit carries, whichever way the loop ended. -/
def wbLog : WbRes → List (List Nat)
  | .normal s => s.log
  | .broke _ s => s.log
  | .exn _ s => s.log
  | .fuelOut s => s.log

theorem writeLoop_zero (blockSize verifyLimit baseaddr : Nat) (resp : Nat → List Nat)
    (s : WbLoop) :
    writeLoop blockSize verifyLimit baseaddr resp 0 s =
      if s.remaining = 0 then .normal s else .fuelOut s := by
  rw [writeLoop.eq_def]

theorem writeLoop_succ (blockSize verifyLimit baseaddr : Nat) (resp : Nat → List Nat)
    (fuel : Nat) (s : WbLoop) :
    writeLoop blockSize verifyLimit baseaddr resp (fuel + 1) s =
      (if s.remaining = 0 then .normal s
      else if 4294967296 ≤ s.offset + baseaddr then .exn "struct.error" s
      else if 256 ≤ wbBytes blockSize s then .exn "struct.error" s
      else if resp s.k = ackByte then
        if resp (s.k + 1) = ackByte then
          if wbLastw blockSize s || decide (verifyLimit ≤ s.verify_count) then
            if 4294967296 ≤ s.verify_data_block_size then .exn "struct.error" s
            else if 4294967296 ≤ s.verify_checksum then .exn "struct.error" s
            else if resp (s.k + 2) = ackByte then
              if 4294967296 ≤ s.offset + (wbData blockSize s).length + baseaddr then
                .exn "struct.error" s
              else
                writeLoop blockSize verifyLimit baseaddr resp fuel
                  { file := s.file.drop (wbBytes blockSize s)
                    offset := s.offset + (wbData blockSize s).length
                    remaining := s.remaining - (wbData blockSize s).length
                    last_write := wbLastw blockSize s
                    verify_start_addr := le32 (s.offset + (wbData blockSize s).length + baseaddr)
                    verify_count := 1
                    verify_checksum := 0
                    verify_data_block_size := 0
                    k := s.k + 3
                    log := s.log ++ [wbCmd1 blockSize baseaddr s] ++ [wbCmd2 blockSize s]
                      ++ [wbCmd3 s] }
            else
              .broke "Non-ack to verify command"
                { s with
                  file := s.file.drop (wbBytes blockSize s)
                  offset := s.offset + (wbData blockSize s).length
                  remaining := s.remaining - (wbData blockSize s).length
                  last_write := wbLastw blockSize s
                  k := s.k + 3
                  log := s.log ++ [wbCmd1 blockSize baseaddr s] ++ [wbCmd2 blockSize s]
                    ++ [wbCmd3 s] }
          else
            writeLoop blockSize verifyLimit baseaddr resp fuel
              { file := s.file.drop (wbBytes blockSize s)
                offset := s.offset + (wbData blockSize s).length
                remaining := s.remaining - (wbData blockSize s).length
                last_write := wbLastw blockSize s
                verify_start_addr := s.verify_start_addr
                verify_count := s.verify_count + 1
                verify_checksum := s.verify_checksum + byteSum (wbData blockSize s)
                verify_data_block_size := s.verify_data_block_size + (wbData blockSize s).length
                k := s.k + 2
                log := s.log ++ [wbCmd1 blockSize baseaddr s] ++ [wbCmd2 blockSize s] }
        else
          .broke "Non-ack to data write"
            { s with
              file := s.file.drop (wbBytes blockSize s)
              last_write := wbLastw blockSize s
              k := s.k + 2
              log := s.log ++ [wbCmd1 blockSize baseaddr s] ++ [wbCmd2 blockSize s] }
      else
        .broke "Non-ack to write command"
          { s with
            last_write := wbLastw blockSize s
            k := s.k + 1
            log := s.log ++ [wbCmd1 blockSize baseaddr s] }) := by
  rw [writeLoop.eq_def]

theorem dataCmdShape_append (l : List (List Nat)) (cmd : List Nat)
    (hl : ∀ e ∈ l, e.head? = some 100 → dataCmdShape e)
    (hc : cmd.head? = some 100 → dataCmdShape cmd) :
    ∀ e ∈ l ++ [cmd], e.head? = some 100 → dataCmdShape e := by
  intro e he hh
  rcases List.mem_append.mp he with h | h
  · exact hl e h hh
  · rcases List.mem_singleton.mp h with rfl
    exact hc hh

theorem writeLoop_data_cmds (blockSize verifyLimit baseaddr : Nat)
    (resp : Nat → List Nat) (fuel : Nat) :
    ∀ (s : WbLoop) (r : WbRes),
    writeLoop blockSize verifyLimit baseaddr resp fuel s = r →
    (∀ e ∈ s.log, e.head? = some 100 → dataCmdShape e) →
    ∀ e ∈ wbLog r, e.head? = some 100 → dataCmdShape e := by
  have hc1 : ∀ bs ba s, (wbCmd1 bs ba s).head? = some 100 → dataCmdShape (wbCmd1 bs ba s) := by
    intro bs ba s h
    simp [wbCmd1] at h
  have hc3 : ∀ s, (wbCmd3 s).head? = some 100 → dataCmdShape (wbCmd3 s) := by
    intro s h
    simp [wbCmd3] at h
  have hc2 : ∀ bs s, (wbCmd2 bs s).head? = some 100 → dataCmdShape (wbCmd2 bs s) :=
    fun bs s _ => ⟨wbData bs s, rfl⟩
  induction fuel with
  | zero =>
    intro s r hr hs
    rw [writeLoop_zero] at hr
    subst hr
    split
    · exact hs
    · exact hs
  | succ n ih =>
    intro s r hr hs
    rw [writeLoop_succ] at hr
    by_cases c0 : s.remaining = 0
    · rw [if_pos c0] at hr; subst hr; exact hs
    · rw [if_neg c0] at hr
      by_cases c1 : 4294967296 ≤ s.offset + baseaddr
      · rw [if_pos c1] at hr; subst hr; exact hs
      · rw [if_neg c1] at hr
        by_cases c2 : 256 ≤ wbBytes blockSize s
        · rw [if_pos c2] at hr; subst hr; exact hs
        · rw [if_neg c2] at hr
          by_cases c3 : resp s.k = ackByte
          · rw [if_pos c3] at hr
            by_cases c4 : resp (s.k + 1) = ackByte
            · rw [if_pos c4] at hr
              by_cases c5 : (wbLastw blockSize s || decide (verifyLimit ≤ s.verify_count)) = true
              · rw [if_pos c5] at hr
                by_cases c6 : 4294967296 ≤ s.verify_data_block_size
                · rw [if_pos c6] at hr; subst hr; exact hs
                · rw [if_neg c6] at hr
                  by_cases c7 : 4294967296 ≤ s.verify_checksum
                  · rw [if_pos c7] at hr; subst hr; exact hs
                  · rw [if_neg c7] at hr
                    by_cases c8 : resp (s.k + 2) = ackByte
                    · rw [if_pos c8] at hr
                      by_cases c9 : 4294967296 ≤ s.offset + (wbData blockSize s).length + baseaddr
                      · rw [if_pos c9] at hr; subst hr; exact hs
                      · rw [if_neg c9] at hr
                        subst hr
                        exact ih _ _ rfl (dataCmdShape_append _ _
                          (dataCmdShape_append _ _
                            (dataCmdShape_append _ _ hs (hc1 _ _ _)) (hc2 _ _)) (hc3 _))
                    · rw [if_neg c8] at hr
                      subst hr
                      exact dataCmdShape_append _ _
                        (dataCmdShape_append _ _
                          (dataCmdShape_append _ _ hs (hc1 _ _ _)) (hc2 _ _)) (hc3 _)
              · rw [if_neg c5] at hr
                subst hr
                exact ih _ _ rfl (dataCmdShape_append _ _
                  (dataCmdShape_append _ _ hs (hc1 _ _ _)) (hc2 _ _))
            · rw [if_neg c4] at hr
              subst hr
              exact dataCmdShape_append _ _
                (dataCmdShape_append _ _ hs (hc1 _ _ _)) (hc2 _ _)
          · rw [if_neg c3] at hr
            subst hr
            exact dataCmdShape_append _ _ hs (hc1 _ _ _)

theorem driverLoop_zero (outcomes : Nat → HRes) (file : List Nat)
    (errVar : Option (Option String)) (i : Nat) :
    driverLoop outcomes 0 file errVar i = ⟨EPERM, 0, .fuelOut⟩ := rfl

theorem driverLoop_succ (outcomes : Nat → HRes) (fuel : Nat) (file : List Nat)
    (errVar : Option (Option String)) (i : Nat) :
    driverLoop outcomes (fuel + 1) file errVar i =
      (if file.isEmpty then ⟨0, 1, .eof⟩
      else if file.length < 6 then ⟨EPERM, 0, .exn⟩
      else if 128 ≤ file.getD 0 0 then ⟨EPERM, 0, .exn⟩
      else if isKnownCmd (file.getD 0 0) (dec32at file 2) then
        match outcomes i with
        | .raiseSerial _ => ⟨ENETUNREACH, 0, .serialExn⟩
        | .raiseExn _ => ⟨EPERM, 0, .exn⟩
        | .ret e =>
          match e with
          | some _ => ⟨EPERM, 1, .handlerError⟩
          | none =>
            driverLoop outcomes fuel ((file.drop 6).drop (dec32at file 2)) (some none) (i + 1)
      else
        match errVar with
        | none => ⟨EPERM, 0, .exn⟩
        | some none => driverLoop outcomes fuel ((file.drop 6).drop (dec32at file 2)) errVar i
        | some (some _) => ⟨EPERM, 1, .handlerError⟩) := rfl

theorem driverLoop_handler_error_aux (outcomes : Nat → HRes) (fuel : Nat) :
    ∀ (file : List Nat) (errVar : Option (Option String)) (i : Nat) (r : DriverOut),
    driverLoop outcomes fuel file errVar i = r →
    r.reason = .handlerError → r.reboots = 1 ∧ r.exit_code = EPERM := by
  induction fuel with
  | zero =>
    intro file errVar i r hr h
    rw [driverLoop_zero] at hr
    subst hr
    simp at h
  | succ n ih =>
    intro file errVar i r hr h
    rw [driverLoop_succ] at hr
    repeat' split at hr
    all_goals subst hr
    all_goals simp_all

set_option maxRecDepth 100000 in
set_option maxHeartbeats 4000000 in
/-- C1: evaluation of the code at the claimed input.  For a 600-byte
payload (all bytes 1) with block size 252, verify limit 8, base address 0,
write offset 0 and an all-acking transport, the handler splits the payload
into chunks of 252, 252 and 96 bytes and emits exactly one verify command
after the third chunk, but that verify carries accumulated length 504 and
accumulated checksum 504 (the sum of the first 504 bytes) rather than the
length 600 and full sum of all 600 bytes the claim requires: the final chunk
is never added to the accumulator, because accumulation only happens on
iterations that do not verify. -/
theorem write_blocks_600_byte_verify_trace :
    process_command_write_blocks wbState (le32 0 ++ le32 0 ++ List.replicate 600 1) 608 allAck 700 =
      .ok (none, { wbState with write_complete := true },
        [119 :: (le32 0 ++ [252]),
         100 :: (List.replicate 252 1 ++ [252]),
         119 :: (le32 252 ++ [252]),
         100 :: (List.replicate 252 1 ++ [252]),
         119 :: (le32 504 ++ [96]),
         100 :: (List.replicate 96 1 ++ [96]),
         118 :: (le32 0 ++ le32 504 ++ le32 504)]) := by decide

set_option maxRecDepth 100000 in
set_option maxHeartbeats 4000000 in
/-- C2: evaluation of the code at a payload that is an exact multiple of the
block size.  A 252-byte payload (one full chunk, all bytes 7) with an
all-acking transport produces exactly one write command and one data
command, no verify command at all, and still sets write_complete: because
last_write is only set when the remainder is strictly shorter than a block,
the final chunk of an exact-multiple payload never triggers the final
verify the claim requires. -/
theorem write_blocks_exact_multiple_trace :
    process_command_write_blocks wbState (le32 0 ++ le32 0 ++ List.replicate 252 7) 260 allAck 700 =
      .ok (none, { wbState with write_complete := true },
        [119 :: (le32 0 ++ [252]),
         100 :: (List.replicate 252 7 ++ [228])]) := by decide

/-- C3: the erase-address iterator built from the sector-map groups
(run 4, size 1024) and (run 2, size 4096), asked for offset 0 and size
12288, yields exactly 0, 1024, 2048, 3072, 4096, 8192 and then stops of its
own accord (the Bool component certifies StopIteration rather than fuel
exhaustion). -/
theorem sector_map_iter_mixed_groups :
    iterSeq 12288 20 [(4, 1024), (2, 4096)] (iterStart [(4, 1024), (2, 4096)]) 0 0 =
      ([0, 1024, 2048, 3072, 4096, 8192], true) := by decide

/-- C4 counterexample: when the SectorMap record (one group, 3 sectors of
size 4, sum 12) arrives before any SelectDevice, both handlers return
without error even though the bank of the subsequently selected handle has
size 1000 and the invariant is violated; the claimed order-independent check
never fires. -/
theorem sector_map_order_counterexample :
    process_command_sector_map c4State (le32 3 ++ le32 4) 8 = .ok (none, c4St1) ∧
    process_command_select_device c4St1 [0, 0] 2 = .ok (none, c4St2) ∧
    c4St2.selected_handle = some 0 ∧
    alookup c4St2.mem_bank_size 0 = some 1000 ∧
    verifySectorMapSum c4St2.sectors c4St2.sector_size ≠ 1000 := by decide

/-- C4 (amended): the sum invariant is enforced only when the SectorMap
record is processed while a selection is already in effect: in that case a
mismatch between the parsed map and the bank size of the selected handle
raises the fatal consistency error.  If the sector map arrives before the
selection, no check is ever performed (see the counterexample). -/
theorem sector_map_mismatch_checked_when_selected (st : UwfState) (file : List Nat)
    (dl h bs : Nat) (secs sizes : List Nat)
    (hsel : st.selected_handle = some h)
    (hbs : alookup st.mem_bank_size h = some bs)
    (hdl : dl / 8 * 8 = dl)
    (hp : parsePairs (file.take dl) (dl / 8) = some (secs, sizes))
    (hmm : verifySectorMapSum secs sizes ≠ bs) :
    process_command_sector_map st file dl = .error "SectorMap not consistent with bank size" := by
  simp only [process_command_sector_map, hdl, hp, hsel, hbs, hmm]
  simp [hdl, hbs, hmm]

/-- Witness for C4: the amended theorem applied at the concrete mismatching
input. -/
theorem sector_map_mismatch_checked_when_selected_witness :
    process_command_sector_map c4SelState (le32 3 ++ le32 4) 8 =
      .error "SectorMap not consistent with bank size" :=
  sector_map_mismatch_checked_when_selected c4SelState (le32 3 ++ le32 4) 8 0 1000 [3] [4]
    rfl (by decide) (by decide) (by decide) (by decide)

/-- C5: whenever synchronized or registered is false, or the sector map is
empty, process_command_erase_blocks returns the precondition error message,
leaves the state unchanged and sends nothing to the transport (empty log). -/
theorem erase_blocks_precondition_failure (st : UwfState) (file : List Nat) (dl : Nat)
    (resp : Nat → List Nat) (fuel : Nat)
    (h : st.synchronized = false ∨ st.registered = false ∨ st.sectors = []) :
    process_command_erase_blocks st file dl resp fuel =
      .ok (some (errorEraseBlocks
        "Target platform, register device, or sector map commands not yet processed"), st, []) := by
  have hp : erasePrecond st = false := by
    unfold erasePrecond
    rcases h with h | h | h <;> simp [h]
  simp [process_command_erase_blocks, hp]

/-- Witness for C5: the theorem applied to the freshly initialised session
state, which is not synchronized. -/
theorem erase_blocks_precondition_failure_witness :
    process_command_erase_blocks initState [] 8 allAck 0 =
      .ok (some (errorEraseBlocks
        "Target platform, register device, or sector map commands not yet processed"),
        initState, []) :=
  erase_blocks_precondition_failure initState [] 8 allAck 0 (Or.inl rfl)

/-- C6 counterexample: on a transport-level fault (a SerialException raised
by the dispatched handler) the driver surfaces a non-zero exit code but
performs zero process_reboot invocations, refuting the claim that every
fatal error triggers the exit/reboot sequence exactly once. -/
theorem driver_serial_fault_skips_reboot :
    (driverLoop (fun _ => .raiseSerial "port disconnected") 10
      ([77, 0] ++ le32 8 ++ le32 3 ++ le32 4) none 0).reboots = 0 ∧
    (driverLoop (fun _ => .raiseSerial "port disconnected") 10
      ([77, 0] ++ le32 8 ++ le32 3 ++ le32 4) none 0).exit_code = 101 := by decide

/-- C6 (amended): when a run stops because a dispatched handler returned an
error value, the driver invokes process_reboot exactly once and exits with
the non-zero code EPERM; a raised exception (serial fault or parse error),
by contrast, stops the run with a non-zero exit code but without any reboot
(see the counterexample). -/
theorem driver_handler_error_reboots_once (outcomes : Nat → HRes) (fuel : Nat)
    (file : List Nat) (errVar : Option (Option String)) (i : Nat)
    (h : (driverLoop outcomes fuel file errVar i).reason = .handlerError) :
    (driverLoop outcomes fuel file errVar i).reboots = 1 ∧
    (driverLoop outcomes fuel file errVar i).exit_code = EPERM :=
  driverLoop_handler_error_aux outcomes fuel file errVar i _ rfl h

/-- Witness for C6: the amended theorem applied to a run whose first handler
reports an error. -/
theorem driver_handler_error_reboots_once_witness :
    (driverLoop (fun _ => .ret (some "boom")) 10
      ([77, 0] ++ le32 8 ++ le32 3 ++ le32 4) none 0).reason = .handlerError ∧
    ((driverLoop (fun _ => .ret (some "boom")) 10
      ([77, 0] ++ le32 8 ++ le32 3 ++ le32 4) none 0).reboots = 1 ∧
     (driverLoop (fun _ => .ret (some "boom")) 10
      ([77, 0] ++ le32 8 ++ le32 3 ++ le32 4) none 0).exit_code = EPERM) :=
  ⟨by decide, driver_handler_error_reboots_once (fun _ => .ret (some "boom")) 10
    ([77, 0] ++ le32 8 ++ le32 3 ++ le32 4) none 0 (by decide)⟩

/-- C7: evaluation of the code at the claimed input.  A file whose FIRST
record has the unknown opcode X (88) with data length 5 does not get
skipped: the driver evaluates the check of the error variable before that
variable was ever assigned, raising NameError, which the module-level
handler turns into exit code EPERM with no reboot - for any handler
outcomes, since no handler is ever dispatched. -/
theorem driver_unknown_first_record_crashes (outcomes : Nat → HRes) :
    driverLoop outcomes 10 ([88, 0] ++ le32 5 ++ [1, 2, 3, 4, 5]) none 0 =
      ⟨EPERM, 0, .exn⟩ := rfl

/-- C8: every data command put on the wire by process_command_write_blocks
(every log entry whose leading byte is the data opcode d) consists of
exactly the opcode, a chunk, and one trailing byte equal to the low byte of
the unsigned byte-wise arithmetic sum of that chunk. -/
theorem write_blocks_data_command_format (st : UwfState) (file : List Nat) (dl : Nat)
    (resp : Nat → List Nat) (fuel : Nat) (err : Option String) (st' : UwfState)
    (log : List (List Nat))
    (hrun : process_command_write_blocks st file dl resp fuel = .ok (err, st', log))
    (e : List Nat) (he : e ∈ log) (hd : e.head? = some 100) :
    dataCmdShape e := by
  unfold process_command_write_blocks at hrun
  repeat' split at hrun
  all_goals try cases hrun
  all_goals try exact absurd he (List.not_mem_nil e)
  all_goals rename_i hw
  all_goals exact writeLoop_data_cmds _ _ _ _ _ _ _ hw (fun e he _ => absurd he (List.not_mem_nil e)) e he hd

/-- Witness for C8: the theorem applied to a concrete two-byte write whose
data command is 100, 5, 6 followed by the checksum byte 11. -/
theorem write_blocks_data_command_format_witness : dataCmdShape [100, 5, 6, 11] :=
  write_blocks_data_command_format wbState (le32 0 ++ le32 0 ++ [5, 6]) 10 allAck 10 none
    { wbState with write_complete := true }
    [[119, 0, 0, 0, 0, 2], [100, 5, 6, 11], [118, 0, 0, 0, 0, 0, 0, 0, 0, 0, 0, 0, 0]]
    (by decide) [100, 5, 6, 11] (by decide) (by decide)

/-- C9: evaluation of the code at the claimed input.  Even for an 11-byte
RegisterDevice payload that decodes exactly to the expected IG60 BL654
profile (handle 0, 1 bank, positive bank size, algorithm 1), the variant
handler raises AttributeError instead of succeeding: it reads self.handle,
which the base-class handler never assigns (the decoded values are stored
only in the per-handle dictionaries). -/
theorem ig60_register_device_attribute_error :
    ig60_process_command_register_device initState ([0] ++ le32 0 ++ [1] ++ le32 77 ++ [1]) 11 =
      .error "AttributeError: Ig60Bl654UwfProcessor object has no attribute handle" := by decide

/-- C10: with erased set and a WriteBlocks record of data length exactly 8
(an empty payload after the 8-byte sub-header), the handler returns no
error, sends nothing to the transport, and still sets write_complete - for
any fuel, since the loop is never entered. -/
theorem write_blocks_empty_payload_completes (st : UwfState) (file : List Nat)
    (resp : Nat → List Nat) (fuel : Nat) (b bs : Nat)
    (her : st.erased = true)
    (hb : alookupOpt st.mem_base_address st.selected_handle = some b)
    (hs : alookupOpt st.mem_bank_size st.selected_handle = some bs)
    (hlen : 8 ≤ file.length)
    (haddr : dec32at (file.take 8) 0 + b < 4294967296) :
    process_command_write_blocks st file 8 resp fuel =
      .ok (none, { st with write_complete := true }, []) := by
  have hlt : ¬ (file.take 8).length < 8 := by
    rw [List.length_take]
    omega
  simp only [process_command_write_blocks, her, if_true, hb, hs, hlt, if_false]
  norm_num
  rw [writeLoop.eq_def]
  simp [haddr, Nat.not_le.mpr haddr]

/-- Witness for C10: the theorem applied to an 8-byte record with a zero
write offset against the prepared session state. -/
theorem write_blocks_empty_payload_completes_witness :
    process_command_write_blocks wbState (le32 0 ++ le32 0) 8 allAck 0 =
      .ok (none, { wbState with write_complete := true }, []) :=
  write_blocks_empty_payload_completes wbState (le32 0 ++ le32 0) allAck 0 0 600000
    rfl (by decide) (by decide) (by decide) (by decide)
